import Mathlib

/-!
Shallow embedding of the TrivialThreadPool library (`include/ttp/thread_pool.hpp`
and `include/ttp/unique_function.hpp`) and proofs about it.

Conventions of the embedding:
* A C++ callable that may throw is modelled as a function `Unit → Except E A`:
  `Except.ok v` is a normal return of `v`, `Except.error e` is a thrown
  exception `e`.
* The atomic flag `m_worked_on` linearizes concurrent `try_run` calls, so a
  set of racing callers is modelled as a finite sequence of `try_run`
  applications to the task state.
* Machine addresses are `Nat`, with `0` playing the role of the null pointer.
* A blocking operation (a condition wait, `std::future::get`) is modelled as a
  function into `Option`: `none` means the call would block and, with no other
  actor able to make progress in the sequential model, never return.
-/

namespace ttp

/-- State of `ttp::details::Task` (thread_pool.hpp lines 21-79).
`worked_on` is the atomic flag `m_worked_on`, `ready` is `m_ready`,
`barrier` records whether `task_barrier.set_value()` has run (the completion
signal observed through `m_future`), `channel` is the result channel backed
by `std::promise`/`std::future` (holding a value or a captured exception once
delivered), and `runs` is a ghost counter of how many times the stored
callable `m_task` has been invoked. -/
structure TaskState (E A : Type) where
  worked_on : Bool
  ready : Bool
  barrier : Bool
  channel : Option (Except E A)
  runs : Nat

variable {E A : Type}

/-- Freshly constructed task (thread_pool.hpp lines 24-59): `m_ready(false)`,
`m_worked_on.clear()`, promise not yet satisfied, barrier not yet signalled. -/
def Task.init : TaskState E A :=
  { worked_on := false, ready := false, barrier := false, channel := none, runs := 0 }

/-- Body of `m_task` built in the Task constructor (thread_pool.hpp lines
43-56): invoke the wrapped callable inside try/catch; on normal return store
the value into the promise, on a throw store the captured exception; in both
cases signal the barrier afterwards.  The `match` is the try/catch: both arms
produce an ordinary post-state, nothing propagates out of the body. -/
def Task.body (f : Unit → Except E A) (s : TaskState E A) : TaskState E A :=
  match f () with
  | Except.ok v => { s with runs := s.runs + 1, channel := some (Except.ok v), barrier := true }
  | Except.error e => { s with runs := s.runs + 1, channel := some (Except.error e), barrier := true }

/-- Model of `Task::try_run` (thread_pool.hpp lines 61-68): atomically
test-and-set `m_worked_on`; the single caller that observed it clear runs
`m_task()` and then sets `m_ready`; every other caller returns at once with
the state untouched. -/
def Task.try_run (f : Unit → Except E A) (s : TaskState E A) : TaskState E A :=
  if s.worked_on then s
  else { Task.body f { s with worked_on := true } with ready := true }

/-- Sequence of `n` successive `try_run` calls on the same task: the
linearization of `n` racing callers (worker threads, `ThreadPool::wait`
draining, `Future::get`). -/
def Task.try_run_n (f : Unit → Except E A) : Nat → TaskState E A → TaskState E A
  | 0, s => s
  | n + 1, s => Task.try_run_n f n (Task.try_run f s)

/-- Consistency of a task state as produced by the code: a delivered result
implies the barrier was signalled (the constructor-built body sets the
promise strictly before `task_barrier.set_value()`, and `Future::get`
unblocks only once the promise is satisfied). -/
def TaskState.consistent (s : TaskState E A) : Bool :=
  !s.channel.isSome || s.barrier

/-- Model of `Future::get` (thread_pool.hpp lines 95-105): first
`m_task->try_run()`, then `m_future.get()`, which blocks until the result
channel holds a value or a captured exception and then returns it (a captured
exception is rethrown, modelled as returning `Except.error`).  `none` means
the read would block. -/
def Future.get (f : Unit → Except E A) (s : TaskState E A) :
    Option (Except E A × TaskState E A) :=
  let s1 := Task.try_run f s
  match s1.channel with
  | some r => some (r, s1)
  | none => none

/-- Size and alignment of a concrete C++ type `T`: the pair
`(sizeof(T), alignof(T))` that drives the `if constexpr` branch of the
`Storage` constructors (unique_function.hpp lines 48-76). -/
structure TypeInfo where
  size : Nat
  align : Nat
deriving DecidableEq, Repr

/-- Active alternative of `Storage::m_data`, the
`std::variant<inline_storage_t, Allocation>` (unique_function.hpp line 131):
either the inline byte buffer, or an `Allocation{ptr, size}` record. -/
inductive StorageData where
  | inline_buf : StorageData
  | allocation (ptr : Nat) (size : Nat) : StorageData
deriving DecidableEq, Repr

/-- Address handed to placement `new` by a `Storage` constructor: the inline
buffer (`&std::get<0>(m_data)`) or a heap address. -/
inductive Addr where
  | inline_slot : Addr
  | heap (ptr : Nat) : Addr
deriving DecidableEq, Repr

/-- Heap allocation request issued through `details::aligned_alloc`
(unique_function.hpp lines 19-26): the requested byte count and alignment. -/
structure AllocReq where
  size : Nat
  align : Nat
deriving DecidableEq, Repr

/-- Model of `details::aligned_alloc` (unique_function.hpp lines 19-26): it
forwards the underlying allocator result unchanged.  `osAlloc = none` is the
allocator failing, in which case `std::aligned_alloc`/`_aligned_malloc`
return the null pointer (address `0`); the wrapper adds no check, no abort
and no error path. -/
def details.aligned_alloc (osAlloc : Option Nat) : Nat :=
  match osAlloc with
  | some ptr => ptr
  | none => 0

/-- Everything a `Storage` constructor does, observably: the resulting
`m_data`, the address given to placement `new`, the heap allocation requests
issued, and whether any control path aborted the process (the constructor
body, unique_function.hpp lines 48-76, contains no abort, no null check and
no throw, so the model records `aborted = false` on every path). -/
structure StorageCtorOut where
  m_data : StorageData
  placed_at : Addr
  requests : List AllocReq
  aborted : Bool
deriving DecidableEq, Repr

/-- Model of the `Storage<N>` value constructor (unique_function.hpp lines
48-61): if `sizeof(T) ≤ N` and `alignof(T) ≤ alignof(inline_storage_t)`
(which is `alignof(std::max_align_t)`, here the parameter `maxAlign`), the
value is placement-constructed in the inline buffer with no allocation;
otherwise `details::aligned_alloc(sizeof(T), alignof(T))` is called, the
returned pointer is stored as `Allocation{ptr, sizeof(T)}`, and the value is
placement-constructed at that pointer — unconditionally, whatever the
allocator returned. -/
def Storage.ctor (N maxAlign : Nat) (t : TypeInfo) (osAlloc : Option Nat) : StorageCtorOut :=
  if t.size ≤ N ∧ t.align ≤ maxAlign then
    { m_data := StorageData.inline_buf, placed_at := Addr.inline_slot,
      requests := [], aborted := false }
  else
    let ptr := details.aligned_alloc osAlloc
    { m_data := StorageData.allocation ptr t.size, placed_at := Addr.heap ptr,
      requests := [⟨t.size, t.align⟩], aborted := false }

/-- Model of `Storage::is_inlined` (unique_function.hpp line 98):
`m_data.index() == 0`. -/
def Storage.is_inlined : StorageData → Bool
  | StorageData.inline_buf => true
  | StorageData.allocation _ _ => false

/-- Observable events of `ErasuredType` operations: an invocation of a
captured destroyer function pointer, an invocation of a captured mover
(relocate) function pointer, and an O(1) transfer of the heap allocation by
`Storage` move (`m_storage = std::move(rhs.m_storage)`).  Function pointers
are identified by `Nat` ids; `0` stands for an uninitialized pointer. -/
inductive Ev where
  | destroy_call (p : Nat) : Ev
  | move_call (p : Nat) : Ev
  | ptr_transfer : Ev
deriving DecidableEq, Repr

/-- State of `ttp::ErasuredType<N>` (unique_function.hpp lines 155-229):
the `m_valid` flag, whether `m_storage` currently holds the inline variant
(`m_storage.is_inlined()`), and the two captured function pointers
`m_mover` and `m_destroyer`. -/
structure ErasuredType where
  m_valid : Bool
  inlined : Bool
  m_mover : Nat
  m_destroyer : Nat
deriving DecidableEq, Repr

/-- Default-constructed `ErasuredType` (unique_function.hpp line 158):
`m_valid = false`, `m_storage` default-constructed to the inline variant,
function pointers left uninitialized (id `0`). -/
def ErasuredType.default_init : ErasuredType :=
  { m_valid := false, inlined := true, m_mover := 0, m_destroyer := 0 }

/-- Value constructor of `ErasuredType` (unique_function.hpp lines 159-163):
valid, storage inline or heap according to the value, and the mover and
destroyer pointers captured from the concrete type. -/
def ErasuredType.mk_value (inl : Bool) (mover destroyer : Nat) : ErasuredType :=
  { m_valid := true, inlined := inl, m_mover := mover, m_destroyer := destroyer }

/-- Model of `ErasuredType::operator=(ErasuredType&&)` (unique_function.hpp
lines 173-195).  Returns (new destination, new source, events in order):
1. if the destination is valid, call its destroyer on its held value and
   clear its flag;
2. if the source is invalid, return — the destination keeps its old function
   pointers and both objects are now invalid;
3. otherwise, heap-held source: move the `Storage` (pointer transfer, the
   source storage resets to the empty inline variant); inline source: call
   the source's mover to move-construct into the destination storage's
   address — no destroyer runs on the source's moved-from remains;
4. copy both function pointers, mark the destination valid and the source
   invalid. -/
def ErasuredType.move_assign (dst src : ErasuredType) : ErasuredType × ErasuredType × List Ev :=
  let evs0 := if dst.m_valid then [Ev.destroy_call dst.m_destroyer] else []
  let dst0 := { dst with m_valid := false }
  if src.m_valid = false then
    (dst0, src, evs0)
  else
    let step :=
      if src.inlined = false then
        ({ dst0 with inlined := false }, { src with inlined := true }, [Ev.ptr_transfer])
      else
        (dst0, src, [Ev.move_call src.m_mover])
    ({ step.1 with m_mover := src.m_mover, m_destroyer := src.m_destroyer, m_valid := true },
     { step.2.1 with m_valid := false },
     evs0 ++ step.2.2)

/-- Model of the move constructor (unique_function.hpp lines 168-171):
`m_valid = false; *this = std::move(rhs);` — the fresh object starts invalid
with a default inline `Storage` and uninitialized function pointers, then
delegates to move assignment. -/
def ErasuredType.move_ctor (src : ErasuredType) : ErasuredType × ErasuredType × List Ev :=
  ErasuredType.move_assign ErasuredType.default_init src

/-- Model of the destructor (unique_function.hpp lines 197-201): invoke the
captured destroyer on the held value only when `m_valid`; otherwise do
nothing. -/
def ErasuredType.dtor (x : ErasuredType) : List Ev :=
  if x.m_valid then [Ev.destroy_call x.m_destroyer] else []

/-- The `ttp::Wait` enumeration (thread_pool.hpp line 17). -/
inductive Wait where
  | Async : Wait
  | Sync : Wait
deriving DecidableEq, Repr

/-- A queued task: the shared `details::Task` handle held by the pool queue
and by the `Future`, carrying the wrapped callable and the task state. -/
structure QueuedTask (E A : Type) where
  func : Unit → Except E A
  st : TaskState E A

/-- State of `ttp::ThreadPool` (thread_pool.hpp lines 116-221): the stored
pool size, the number of spawned worker threads (`m_workers.size()`), the
FIFO task queue (head of the list = front of `m_tasks`), and the in-flight
counter `m_ongoing`. -/
structure PoolState (E A : Type) where
  m_pool_size : Nat
  m_workers : Nat
  m_tasks : List (QueuedTask E A)
  m_ongoing : Nat

/-- Model of the `ThreadPool(std::size_t pool_size)` constructor
(thread_pool.hpp lines 118-125): store the size, start exactly `pool_size`
worker threads, empty queue, `m_ongoing = 0`.  The constructor is `noexcept`
and performs no validation of `pool_size`; it is a total function of its
argument. -/
def ThreadPool.ctor (pool_size : Nat) : PoolState E A :=
  { m_pool_size := pool_size, m_workers := pool_size, m_tasks := [], m_ongoing := 0 }

/-- Model of `ThreadPool::async` (thread_pool.hpp lines 140-154): build a
fresh shared `Task` around the callable, push it at the back of the FIFO
queue, and return a `Future` sharing the same task.  The shared handle is
modelled by returning the same `QueuedTask` value that is enqueued. -/
def ThreadPool.async (p : PoolState E A) (f : Unit → Except E A) :
    PoolState E A × QueuedTask E A :=
  let wrapped_task : QueuedTask E A := { func := f, st := Task.init }
  ({ p with m_tasks := p.m_tasks ++ [wrapped_task] }, wrapped_task)

/-- Drain loop of `ThreadPool::wait(Wait::Async)` (thread_pool.hpp lines
163-176): while the queue is non-empty, increment `m_ongoing`, pop the front
task, run it via `try_run`, decrement `m_ongoing`.  Returns the processed
tasks (post-`try_run` states, front first — they stay alive through their
shared handles) and the final value of `m_ongoing`. -/
def ThreadPool.drain : List (QueuedTask E A) → Nat → List (QueuedTask E A) × Nat
  | [], ongoing => ([], ongoing)
  | t :: rest, ongoing =>
    let running := ongoing + 1
    let t1 : QueuedTask E A := { t with st := Task.try_run t.func t.st }
    let step := ThreadPool.drain rest (running - 1)
    (t1 :: step.1, step.2)

/-- Model of `ThreadPool::wait(Wait how)` (thread_pool.hpp lines 161-181):
in `Wait::Async` mode the calling thread first drains the queue itself as in
`ThreadPool.drain`; in `Wait::Sync` mode it drains nothing.  Both modes then
block on `m_complete_condition` until `m_ongoing == 0`; the blocking wait is
modelled by returning `none` when the predicate does not hold (with no other
actor in the sequential model, the wait would never be signalled).  On return
it yields the pool state and the tasks the calling thread ran. -/
def ThreadPool.wait (p : PoolState E A) (how : Wait) :
    Option (PoolState E A × List (QueuedTask E A)) :=
  let drained :=
    match how with
    | Wait.Async =>
      let step := ThreadPool.drain p.m_tasks p.m_ongoing
      ({ p with m_tasks := [], m_ongoing := step.2 }, step.1)
    | Wait.Sync => (p, [])
  if drained.1.m_ongoing = 0 then some drained else none

/-! Helper lemmas shared by several claim theorems. -/

theorem Task.body_fields (f : Unit → Except E A) (s : TaskState E A) :
    Task.body f s =
      { s with runs := s.runs + 1, channel := some (f ()), barrier := true } := by
  rcases hf : f () with v | e <;> simp [Task.body, hf]

theorem Task.try_run_of_worked_on (f : Unit → Except E A) (s : TaskState E A)
    (h : s.worked_on = true) : Task.try_run f s = s := by
  simp [Task.try_run, h]

theorem Task.try_run_not_worked_on (f : Unit → Except E A) (s : TaskState E A)
    (h : s.worked_on = false) :
    Task.try_run f s =
      { worked_on := true, ready := true, barrier := true,
        channel := some (f ()), runs := s.runs + 1 } := by
  simp [Task.try_run, h, Task.body_fields]

theorem Task.try_run_worked_on (f : Unit → Except E A) (s : TaskState E A) :
    (Task.try_run f s).worked_on = true ∨ Task.try_run f s = s := by
  cases h : s.worked_on
  · exact Or.inl (by rw [Task.try_run_not_worked_on f s h])
  · exact Or.inr (Task.try_run_of_worked_on f s h)

theorem Task.try_run_n_of_worked_on (f : Unit → Except E A) (n : Nat)
    (s : TaskState E A) (h : s.worked_on = true) : Task.try_run_n f n s = s := by
  induction n generalizing s with
  | zero => rfl
  | succ m ih =>
    simp only [Task.try_run_n, Task.try_run_of_worked_on f s h]
    exact ih s h

theorem Task.try_run_init (f : Unit → Except E A) :
    Task.try_run f (Task.init : TaskState E A) =
      { worked_on := true, ready := true, barrier := true,
        channel := some (f ()), runs := 1 } :=
  Task.try_run_not_worked_on f Task.init rfl

/-! Claim theorems. -/

/-- C1: for every Task, across any number of `try_run` calls (linearized by
the atomic `m_worked_on` flag), the wrapped callable is invoked at most once:
the single caller that wins the test-and-set performs the Pending-to-Running
transition (after it `worked_on = true` and `runs = 1`), every caller that
observes the guard already set returns immediately with the state untouched,
and after any positive number of calls the invocation count is exactly 1. -/
theorem Task.try_run_exactly_once (E A : Type) (f : Unit → Except E A) (n : Nat) :
    (∀ s : TaskState E A, s.worked_on = true → Task.try_run f s = s) ∧
    ((Task.try_run f (Task.init : TaskState E A)).worked_on = true ∧
      (Task.try_run f (Task.init : TaskState E A)).runs = 1) ∧
    (Task.try_run_n f n (Task.init : TaskState E A)).runs ≤ 1 ∧
    (1 ≤ n → (Task.try_run_n f n (Task.init : TaskState E A)).runs = 1) := by
  have hfirst := Task.try_run_init f
  have hrest : ∀ m : Nat, 1 ≤ m →
      Task.try_run_n f m (Task.init : TaskState E A) = Task.try_run f Task.init := by
    intro m hm
    obtain ⟨k, rfl⟩ := Nat.exists_eq_add_of_le hm
    rw [Nat.add_comm 1 k]
    simp only [Task.try_run_n]
    exact Task.try_run_n_of_worked_on f k _ (by rw [hfirst])
  refine ⟨fun s h => Task.try_run_of_worked_on f s h, ⟨by rw [hfirst], by rw [hfirst]⟩, ?_, ?_⟩
  · cases n with
    | zero => exact Nat.zero_le 1
    | succ m => rw [hrest (m + 1) (Nat.succ_le_succ (Nat.zero_le m)), hfirst]
  · intro hn
    rw [hrest n hn, hfirst]

/-- Witness for C1 at `f = fun _ => Except.ok 5`, `n = 3` and the concrete
already-claimed state with `worked_on = true`. -/
theorem Task.try_run_exactly_once_witness :
    ((⟨true, false, false, none, 0⟩ : TaskState Nat Nat).worked_on = true ∧
      Task.try_run (fun _ => Except.ok 5) (⟨true, false, false, none, 0⟩ : TaskState Nat Nat) =
        ⟨true, false, false, none, 0⟩) ∧
    (1 ≤ 3 ∧
      (Task.try_run_n (fun _ => Except.ok 5) 3 (Task.init : TaskState Nat Nat)).runs = 1) :=
  ⟨⟨rfl, (Task.try_run_exactly_once Nat Nat (fun _ => Except.ok 5) 3).1 _ rfl⟩,
   ⟨by decide, (Task.try_run_exactly_once Nat Nat (fun _ => Except.ok 5) 3).2.2.2 (by decide)⟩⟩

/-- C2: `Future::get` first calls `try_run` on the held Task: if the task is
unclaimed (`worked_on = false`) the body executes synchronously on the
calling thread (`runs` increments, the channel is read only afterwards and
`get` returns the callable's own outcome); and whenever `get` returns, the
state it read is the post-`try_run` state, the result channel holds the
returned outcome, and — for any state consistent with the code's ordering of
promise and barrier — the completion signal is set, so `get` never returns or
throws before the wrapped Task has completed. -/
theorem Future.get_spec (E A : Type) (f : Unit → Except E A) (s : TaskState E A) :
    (s.worked_on = false →
      Future.get f s = some (f (), Task.try_run f s) ∧
      (Task.try_run f s).runs = s.runs + 1 ∧
      (Task.try_run f s).barrier = true) ∧
    (∀ r s1, Future.get f s = some (r, s1) →
      s1 = Task.try_run f s ∧ s1.channel = some r) ∧
    (s.consistent = true → ∀ r s1, Future.get f s = some (r, s1) → s1.barrier = true) := by
  refine ⟨?_, ?_, ?_⟩
  · intro h
    rw [Task.try_run_not_worked_on f s h]
    exact ⟨by simp [Future.get, Task.try_run_not_worked_on f s h], rfl, rfl⟩
  · intro r s1 hget
    cases hch : (Task.try_run f s).channel with
    | none => simp [Future.get, hch] at hget
    | some r0 =>
      simp only [Future.get, hch, Option.some.injEq, Prod.mk.injEq] at hget
      exact ⟨hget.2.symm, by rw [hget.2.symm, hch, hget.1]⟩
  · intro hcons r s1 hget
    cases h : s.worked_on with
    | false =>
      have := Task.try_run_not_worked_on f s h
      cases hch : (Task.try_run f s).channel with
      | none => simp [Future.get, hch] at hget
      | some r0 =>
        simp only [Future.get, hch, Option.some.injEq, Prod.mk.injEq] at hget
        rw [hget.2.symm, this]
    | true =>
      have heq := Task.try_run_of_worked_on f s h
      cases hch : (Task.try_run f s).channel with
      | none => simp [Future.get, hch] at hget
      | some r0 =>
        simp only [Future.get, hch, Option.some.injEq, Prod.mk.injEq] at hget
        rw [heq] at hch
        have : s.channel.isSome = true := by rw [hch]; rfl
        have hb : s.barrier = true := by
          simpa [TaskState.consistent, this] using hcons
        rw [hget.2.symm, heq, hb]

/-- Witness for C2 at `f = fun _ => Except.ok 3` and the fresh task state,
which is unclaimed and consistent. -/
theorem Future.get_spec_witness :
    ((Task.init : TaskState Nat Nat).worked_on = false ∧
      Future.get (fun _ => Except.ok 3) (Task.init : TaskState Nat Nat) =
        some (Except.ok 3, Task.try_run (fun _ => Except.ok 3) Task.init)) ∧
    ((Task.init : TaskState Nat Nat).consistent = true ∧
      (Task.try_run (fun _ => Except.ok 3) (Task.init : TaskState Nat Nat)).barrier = true) :=
  ⟨⟨rfl, ((Future.get_spec Nat Nat (fun _ => Except.ok 3) Task.init).1 rfl).1⟩,
   ⟨rfl, (Future.get_spec Nat Nat (fun _ => Except.ok 3) Task.init).2.2 rfl
      (Except.ok 3) _ ((Future.get_spec Nat Nat (fun _ => Except.ok 3) Task.init).1 rfl).1⟩⟩

/-- C3: for every submitted callable that throws (`f () = Except.error e`),
running the unclaimed task captures the exception into the result channel,
`try_run` returns an ordinary fully-determined state rather than propagating
the exception, the completion signal (`barrier`) and readiness are still
set, and a later `Future::get` rethrows the captured failure. -/
theorem Task.exception_captured (E A : Type) (f : Unit → Except E A) (e : E)
    (hf : f () = Except.error e) (s : TaskState E A) (h : s.worked_on = false) :
    Task.try_run f s =
      { worked_on := true, ready := true, barrier := true,
        channel := some (Except.error e), runs := s.runs + 1 } ∧
    Future.get f s = some (Except.error e, Task.try_run f s) := by
  have h1 := Task.try_run_not_worked_on f s h
  rw [hf] at h1
  exact ⟨h1, by simp [Future.get, h1]⟩

/-- Witness for C3 at the always-throwing callable `fun _ => Except.error 7`
and the fresh task state. -/
theorem Task.exception_captured_witness :
    ((fun _ => Except.error 7 : Unit → Except Nat Nat) () = Except.error 7 ∧
      (Task.init : TaskState Nat Nat).worked_on = false) ∧
    Task.try_run (fun _ => Except.error 7) (Task.init : TaskState Nat Nat) =
      { worked_on := true, ready := true, barrier := true,
        channel := some (Except.error 7), runs := 1 } ∧
    Future.get (fun _ => Except.error 7) (Task.init : TaskState Nat Nat) =
      some (Except.error 7, Task.try_run (fun _ => Except.error 7) Task.init) :=
  ⟨⟨rfl, rfl⟩,
   Task.exception_captured Nat Nat (fun _ => Except.error 7) 7 rfl Task.init rfl⟩

/-- C4 counterexample: moving a valid inline-held value (mover id 5,
destroyer id 7) into a fresh invalid destination emits exactly one event —
the relocate call — and in particular the source's captured destroyer is
never invoked on its moved-from remains, contrary to the claim. -/
theorem ErasuredType.move_no_source_destroy_cex :
    (ErasuredType.move_assign ErasuredType.default_init
        (ErasuredType.mk_value true 5 7)).2.2 = [Ev.move_call 5] ∧
    Ev.destroy_call 7 ∉
      (ErasuredType.move_assign ErasuredType.default_init
        (ErasuredType.mk_value true 5 7)).2.2 := by
  decide

/-- C4 (amended): for every move of an `ErasuredType` holding a valid value:
if the source's value lives on the heap, the transfer is by pointer (one
`ptr_transfer` event, both captured function pointers copied, source
invalidated); if the source's value is inline, the source's captured relocate
function is called once to move-construct the bytes into the destination's
storage, both function pointers are copied and the source is invalidated —
without the source's captured destroyer being invoked on the moved-from
remains (the only destroy event in either case is the destination disposing
of its own previous value).  Move-construction delegates to move-assignment
from a fresh invalid destination. -/
theorem ErasuredType.move_transfer_spec (dst src : ErasuredType)
    (h : src.m_valid = true) :
    (src.inlined = false →
      ErasuredType.move_assign dst src =
        (⟨true, false, src.m_mover, src.m_destroyer⟩,
         { src with m_valid := false, inlined := true },
         (if dst.m_valid then [Ev.destroy_call dst.m_destroyer] else []) ++
           [Ev.ptr_transfer])) ∧
    (src.inlined = true →
      ErasuredType.move_assign dst src =
        ({ dst with m_valid := true, m_mover := src.m_mover, m_destroyer := src.m_destroyer },
         { src with m_valid := false },
         (if dst.m_valid then [Ev.destroy_call dst.m_destroyer] else []) ++
           [Ev.move_call src.m_mover])) ∧
    ErasuredType.move_ctor src = ErasuredType.move_assign ErasuredType.default_init src := by
  refine ⟨?_, ?_, rfl⟩ <;> intro hin <;> simp [ErasuredType.move_assign, h, hin]

/-- Witness for C4 (amended) at a valid inline source with mover id 5 and
destroyer id 7, moved into a fresh invalid destination. -/
theorem ErasuredType.move_transfer_spec_witness :
    ((ErasuredType.mk_value true 5 7).m_valid = true ∧
      (ErasuredType.mk_value true 5 7).inlined = true) ∧
    ErasuredType.move_assign ErasuredType.default_init (ErasuredType.mk_value true 5 7) =
      ({ ErasuredType.default_init with m_valid := true, m_mover := 5, m_destroyer := 7 },
       { ErasuredType.mk_value true 5 7 with m_valid := false },
       (if ErasuredType.default_init.m_valid
          then [Ev.destroy_call ErasuredType.default_init.m_destroyer] else []) ++
         [Ev.move_call 5]) :=
  ⟨⟨rfl, rfl⟩,
   (ErasuredType.move_transfer_spec ErasuredType.default_init
      (ErasuredType.mk_value true 5 7) rfl).2.1 rfl⟩

/-- C7: validity invariant of `ErasuredType`.  A moved-from container (by
move assignment or move construction) has `m_valid = false`; the destructor
of an invalid container is a no-op; a destroyer function pointer is invoked
during move assignment only when the destination was valid, and only the
destination's own captured destroyer; a mover is invoked only when the
source was valid, and only the source's own captured mover; a non-empty
destructor event list implies the container was valid. -/
theorem ErasuredType.validity_invariant (dst src x : ErasuredType) :
    (ErasuredType.move_assign dst src).2.1.m_valid = false ∧
    (∀ p, Ev.destroy_call p ∈ (ErasuredType.move_assign dst src).2.2 →
      dst.m_valid = true ∧ p = dst.m_destroyer) ∧
    (∀ p, Ev.move_call p ∈ (ErasuredType.move_assign dst src).2.2 →
      src.m_valid = true ∧ p = src.m_mover) ∧
    (ErasuredType.move_ctor src).2.1.m_valid = false ∧
    (x.m_valid = false → ErasuredType.dtor x = []) ∧
    (ErasuredType.dtor x ≠ [] → x.m_valid = true) := by
  have hinv : ∀ d s : ErasuredType, (ErasuredType.move_assign d s).2.1.m_valid = false := by
    intro d s
    cases hs : s.m_valid
    · simp [ErasuredType.move_assign, hs]
    · cases hi : s.inlined <;> simp [ErasuredType.move_assign, hs, hi]
  refine ⟨hinv dst src, ?_, ?_, hinv ErasuredType.default_init src, ?_, ?_⟩
  · intro p hp
    cases hd : dst.m_valid <;> cases hs : src.m_valid <;> cases hi : src.inlined <;>
        simp [ErasuredType.move_assign, hd, hs, hi] at hp <;> exact ⟨rfl, hp⟩
  · intro p hp
    cases hd : dst.m_valid <;> cases hs : src.m_valid <;> cases hi : src.inlined <;>
        simp [ErasuredType.move_assign, hd, hs, hi] at hp <;> exact ⟨rfl, hp⟩
  · intro hx
    simp [ErasuredType.dtor, hx]
  · intro hx
    cases hv : x.m_valid
    · exact absurd (by simp [ErasuredType.dtor, hv]) hx
    · rfl

/-- Witness for C7 at a valid inline source (mover 5, destroyer 7), a valid
destination (destroyer 3), and the default-constructed container. -/
theorem ErasuredType.validity_invariant_witness :
    (ErasuredType.move_assign (ErasuredType.mk_value true 2 3)
        (ErasuredType.mk_value true 5 7)).2.1.m_valid = false ∧
    (Ev.destroy_call 3 ∈ (ErasuredType.move_assign (ErasuredType.mk_value true 2 3)
        (ErasuredType.mk_value true 5 7)).2.2 ∧
      ((ErasuredType.mk_value true 2 3).m_valid = true ∧
        (3 : Nat) = (ErasuredType.mk_value true 2 3).m_destroyer)) ∧
    (Ev.move_call 5 ∈ (ErasuredType.move_assign (ErasuredType.mk_value true 2 3)
        (ErasuredType.mk_value true 5 7)).2.2 ∧
      ((ErasuredType.mk_value true 5 7).m_valid = true ∧
        (5 : Nat) = (ErasuredType.mk_value true 5 7).m_mover)) ∧
    (ErasuredType.default_init.m_valid = false ∧
      ErasuredType.dtor ErasuredType.default_init = []) :=
  ⟨(ErasuredType.validity_invariant (ErasuredType.mk_value true 2 3)
      (ErasuredType.mk_value true 5 7) ErasuredType.default_init).1,
   ⟨by decide,
    (ErasuredType.validity_invariant (ErasuredType.mk_value true 2 3)
      (ErasuredType.mk_value true 5 7) ErasuredType.default_init).2.1 3 (by decide)⟩,
   ⟨by decide,
    (ErasuredType.validity_invariant (ErasuredType.mk_value true 2 3)
      (ErasuredType.mk_value true 5 7) ErasuredType.default_init).2.2.1 5 (by decide)⟩,
   ⟨rfl,
    (ErasuredType.validity_invariant (ErasuredType.mk_value true 2 3)
      (ErasuredType.mk_value true 5 7) ErasuredType.default_init).2.2.2.2.1 rfl⟩⟩

/-- C9: move-assigning an invalid source into a destination first destroys
the destination's held value when the destination was valid (and emits
nothing otherwise), returns early, and afterwards both objects are invalid;
the destination's captured function pointers are not replaced and the source
is untouched. -/
theorem ErasuredType.move_assign_invalid_source (dst src : ErasuredType)
    (h : src.m_valid = false) :
    ErasuredType.move_assign dst src =
      ({ dst with m_valid := false }, src,
        if dst.m_valid then [Ev.destroy_call dst.m_destroyer] else []) ∧
    (ErasuredType.move_assign dst src).1.m_valid = false ∧
    (ErasuredType.move_assign dst src).2.1.m_valid = false ∧
    (ErasuredType.move_assign dst src).1.m_mover = dst.m_mover ∧
    (ErasuredType.move_assign dst src).1.m_destroyer = dst.m_destroyer ∧
    (dst.m_valid = true →
      (ErasuredType.move_assign dst src).2.2 = [Ev.destroy_call dst.m_destroyer]) := by
  have he : ErasuredType.move_assign dst src =
      ({ dst with m_valid := false }, src,
        if dst.m_valid then [Ev.destroy_call dst.m_destroyer] else []) := by
    simp [ErasuredType.move_assign, h]
  refine ⟨he, by rw [he], by rw [he]; exact h, by rw [he], by rw [he], ?_⟩
  intro hd
  rw [he]
  simp [hd]

/-- Witness for C9 at a valid destination (mover 2, destroyer 3) and the
default-constructed (invalid) source. -/
theorem ErasuredType.move_assign_invalid_source_witness :
    ErasuredType.default_init.m_valid = false ∧
    (ErasuredType.mk_value true 2 3).m_valid = true ∧
    ErasuredType.move_assign (ErasuredType.mk_value true 2 3) ErasuredType.default_init =
      ({ ErasuredType.mk_value true 2 3 with m_valid := false },
       ErasuredType.default_init,
       if (ErasuredType.mk_value true 2 3).m_valid
         then [Ev.destroy_call (ErasuredType.mk_value true 2 3).m_destroyer] else []) ∧
    (ErasuredType.move_assign (ErasuredType.mk_value true 2 3)
        ErasuredType.default_init).2.2 = [Ev.destroy_call 3] :=
  ⟨rfl, rfl,
   (ErasuredType.move_assign_invalid_source (ErasuredType.mk_value true 2 3)
      ErasuredType.default_init rfl).1,
   (ErasuredType.move_assign_invalid_source (ErasuredType.mk_value true 2 3)
      ErasuredType.default_init rfl).2.2.2.2.2 rfl⟩

/-- C5 counterexample: for an oversized type (`sizeof = 32`, `alignof = 8`
with inline capacity `N = 4`) whose heap allocation fails, the `Storage`
constructor completes normally: nothing aborts, the null pointer `0` is
recorded as the heap allocation and is the address handed to placement
`new` — execution does continue with an invalid address, contrary to the
claim of a fatal process abort. -/
theorem Storage.alloc_failure_cex :
    (Storage.ctor 4 16 ⟨32, 8⟩ none).aborted = false ∧
    (Storage.ctor 4 16 ⟨32, 8⟩ none).placed_at = Addr.heap 0 ∧
    (Storage.ctor 4 16 ⟨32, 8⟩ none).m_data = StorageData.allocation 0 32 := by
  decide

/-- C5 (amended): when constructing `Storage` for a value exceeding the
inline threshold and the heap allocation fails, the failure is not detected:
there is no recoverable error path and no abort — the constructor completes,
storing the null pointer as the buffer address, and placement-construction
proceeds at the null (invalid) address, which is undefined behavior. -/
theorem Storage.alloc_failure_unchecked (N maxAlign : Nat) (t : TypeInfo)
    (h : ¬(t.size ≤ N ∧ t.align ≤ maxAlign)) :
    Storage.ctor N maxAlign t none =
      { m_data := StorageData.allocation 0 t.size, placed_at := Addr.heap 0,
        requests := [⟨t.size, t.align⟩], aborted := false } := by
  simp [Storage.ctor, h, details.aligned_alloc]

/-- Witness for C5 (amended) at `N = 4`, `maxAlign = 16` and an oversized
type with `sizeof = 32`, `alignof = 8`. -/
theorem Storage.alloc_failure_unchecked_witness :
    ¬((32 : Nat) ≤ 4 ∧ (8 : Nat) ≤ 16) ∧
    Storage.ctor 4 16 ⟨32, 8⟩ none =
      { m_data := StorageData.allocation 0 32, placed_at := Addr.heap 0,
        requests := [⟨32, 8⟩], aborted := false } :=
  ⟨by decide, Storage.alloc_failure_unchecked 4 16 ⟨32, 8⟩ (by decide)⟩

/-- C6: constructing `Storage<N>` from a value of a type `t` places the
value inline (no allocation request) exactly when `sizeof ≤ N` and
`alignof ≤ maxAlign` (the platform's maximum natural alignment); for every
type exceeding the threshold in either dimension the storage is not inline
and exactly one heap allocation of exactly `sizeof` bytes with alignment
`alignof` is requested, whose result is recorded as the allocation. -/
theorem Storage.inline_threshold (N maxAlign : Nat) (t : TypeInfo) (osAlloc : Option Nat) :
    (Storage.is_inlined (Storage.ctor N maxAlign t osAlloc).m_data = true ↔
      (t.size ≤ N ∧ t.align ≤ maxAlign)) ∧
    ((t.size ≤ N ∧ t.align ≤ maxAlign) →
      Storage.ctor N maxAlign t osAlloc =
        { m_data := StorageData.inline_buf, placed_at := Addr.inline_slot,
          requests := [], aborted := false }) ∧
    (¬(t.size ≤ N ∧ t.align ≤ maxAlign) →
      Storage.is_inlined (Storage.ctor N maxAlign t osAlloc).m_data = false ∧
      (Storage.ctor N maxAlign t osAlloc).requests = [⟨t.size, t.align⟩] ∧
      (Storage.ctor N maxAlign t osAlloc).m_data =
        StorageData.allocation (details.aligned_alloc osAlloc) t.size) := by
  by_cases h : t.size ≤ N ∧ t.align ≤ maxAlign <;>
    simp [Storage.ctor, Storage.is_inlined, h]

/-- Witness for C6 at a fitting type (`sizeof = 4`, `alignof = 4`,
`N = 8`, `maxAlign = 16`) and an oversized one (`sizeof = 32`). -/
theorem Storage.inline_threshold_witness :
    (((4 : Nat) ≤ 8 ∧ (4 : Nat) ≤ 16) ∧
      Storage.ctor 8 16 ⟨4, 4⟩ (some 100) =
        { m_data := StorageData.inline_buf, placed_at := Addr.inline_slot,
          requests := [], aborted := false }) ∧
    (¬((32 : Nat) ≤ 8 ∧ (8 : Nat) ≤ 16) ∧
      Storage.is_inlined (Storage.ctor 8 16 ⟨32, 8⟩ (some 100)).m_data = false ∧
      (Storage.ctor 8 16 ⟨32, 8⟩ (some 100)).requests = [⟨32, 8⟩] ∧
      (Storage.ctor 8 16 ⟨32, 8⟩ (some 100)).m_data =
        StorageData.allocation (details.aligned_alloc (some 100)) 32) :=
  ⟨⟨by decide, (Storage.inline_threshold 8 16 ⟨4, 4⟩ (some 100)).2.1 (by decide)⟩,
   ⟨by decide, (Storage.inline_threshold 8 16 ⟨32, 8⟩ (some 100)).2.2 (by decide)⟩⟩

theorem ThreadPool.drain_eq (ts : List (QueuedTask E A)) (ongoing : Nat) :
    ThreadPool.drain ts ongoing =
      (ts.map fun t => { t with st := Task.try_run t.func t.st }, ongoing) := by
  induction ts generalizing ongoing with
  | nil => rfl
  | cons t rest ih => simp [ThreadPool.drain, ih]

/-- C8: `ThreadPool::wait(Wait::Async)` (cooperative mode) has the calling
thread drain the FIFO queue itself — every queued task, front first, is run
through `try_run` and the queue ends empty — and then returns exactly when
the in-flight count `m_ongoing` is zero (otherwise it blocks on the
completion condition, modelled as `none`); `wait(Wait::Sync)` (blocking
mode) drains nothing, runs nothing, leaves the pool untouched, and likewise
returns exactly when `m_ongoing` is zero.  The drain's paired increment and
decrement of `m_ongoing` leave it unchanged. -/
theorem ThreadPool.wait_modes (E A : Type) (p : PoolState E A) :
    ThreadPool.wait p Wait.Async =
      (if p.m_ongoing = 0 then
        some ({ p with m_tasks := [] },
          p.m_tasks.map fun t => { t with st := Task.try_run t.func t.st })
       else none) ∧
    ThreadPool.wait p Wait.Sync =
      (if p.m_ongoing = 0 then some (p, []) else none) := by
  constructor
  · simp [ThreadPool.wait, ThreadPool.drain_eq]
  · simp [ThreadPool.wait]

/-- C10: the `ThreadPool` constructor accepts `pool_size = 0` with no
validation or error: the pool starts with zero worker threads, an empty
queue and a zero in-flight count.  A task submitted through `async` on such
a pool can still run: `Future::get` on the returned future claims and runs
it synchronously on the calling thread, and cooperative `wait(Wait::Async)`
drains and runs it on the calling thread as well, emptying the queue. -/
theorem ThreadPool.zero_workers (E A : Type) (f : Unit → Except E A) :
    (ThreadPool.ctor 0 : PoolState E A) =
      { m_pool_size := 0, m_workers := 0, m_tasks := [], m_ongoing := 0 } ∧
    (ThreadPool.async (ThreadPool.ctor 0 : PoolState E A) f).1.m_workers = 0 ∧
    (ThreadPool.async (ThreadPool.ctor 0 : PoolState E A) f).1.m_tasks =
      [{ func := f, st := Task.init }] ∧
    Future.get (ThreadPool.async (ThreadPool.ctor 0 : PoolState E A) f).2.func
        (ThreadPool.async (ThreadPool.ctor 0 : PoolState E A) f).2.st =
      some (f (), Task.try_run f Task.init) ∧
    (Task.try_run f (Task.init : TaskState E A)).runs = 1 ∧
    ThreadPool.wait (ThreadPool.async (ThreadPool.ctor 0 : PoolState E A) f).1 Wait.Async =
      some ({ m_pool_size := 0, m_workers := 0, m_tasks := [], m_ongoing := 0 },
        [{ func := f, st := Task.try_run f Task.init }]) := by
  refine ⟨rfl, rfl, rfl, ?_, ?_, ?_⟩
  · simp [ThreadPool.async, ThreadPool.ctor, Future.get, Task.try_run_init]
  · rw [Task.try_run_init]
  · simp [ThreadPool.wait, ThreadPool.async, ThreadPool.ctor, ThreadPool.drain_eq]

end ttp
